import Mathlib

/-!
Shallow embedding of voidpp_web_tools/remote_controller_daemon.py.

The module implements origin-aware RPC dispatch: the rpc decorator wraps a
method of a RemoteControllerDeamon; at call time it compares the current
process id with the pid recorded for the daemon and either invokes the
wrapped callable directly (server side) or issues a JSON-RPC HTTP POST to
the daemon (client side).  Values travelling through JSON are modelled by
the inductive JValue; Python exceptions by PyExn carried in Except; the
HTTP transport by an oracle function from the issued POST to its outcome.
-/

set_option autoImplicit false

/-- JSON-decodable Python values, as produced by json.loads on a response
body and as accepted by json.dumps in the request payload. -/
inductive JValue where
  | null
  | bool (b : Bool)
  | int (n : Int)
  | str (s : String)
  | arr (elems : List JValue)
  | obj (fields : List (String × JValue))

/-- Keyword arguments of a Python call: an ordered mapping from argument
name to value, as passed into the params member of the payload. -/
abbrev Kwargs := List (String × JValue)

mutual

/-- Python repr() of a decoded JSON value: strings are quoted (written with
the escape \x27), lists bracketed, dicts braced. -/
def pyRepr : JValue → String
  | .null => "None"
  | .bool true => "True"
  | .bool false => "False"
  | .int n => toString n
  | .str s => "\x27" ++ s ++ "\x27"
  | .arr xs => "[" ++ String.intercalate ", " (pyReprList xs) ++ "]"
  | .obj kvs => "\x7b" ++ String.intercalate ", " (pyReprPairs kvs) ++ "\x7d"

/-- Python repr() of each element of a list. -/
def pyReprList : List JValue → List String
  | [] => []
  | v :: vs => pyRepr v :: pyReprList vs

/-- Python repr() of each key-value pair of a dict. -/
def pyReprPairs : List (String × JValue) → List String
  | [] => []
  | (k, v) :: kvs => ("\x27" ++ k ++ "\x27: " ++ pyRepr v) :: pyReprPairs kvs

end

/-- Python str() of a decoded JSON value, which is what str.format
interpolates: identical to repr() except that a top-level string appears
unquoted. -/
def pyStr : JValue → String
  | .str s => s
  | v => pyRepr v

/-- Lookup of a key in a decoded JSON object (a Python dict): the Python
expressions k in d and d[k] on the association list representation. -/
def jsonGet (o : List (String × JValue)) (k : String) : Option JValue :=
  match o.find? (fun p => p.1 == k) with
  | some p => some p.2
  | none => none

/-- Python exceptions that the embedded code can raise or propagate. -/
inductive PyExn where
  | keyError
  | typeError
  | valueError (msg : String)
  | userExn (msg : String)

/-- An exposed method of the daemon: its __name__ and its body.  The body
takes the positional arguments after the instance itself plus the keyword
arguments, and either returns a value or raises. -/
structure PyMethod where
  name : String
  fn : List JValue → Kwargs → Except PyExn JValue

/-- JSON-RPC request payload built by rpc_wrapper, field for field the dict
literal of the source: method, params, jsonrpc, id. -/
structure RpcRequest where
  method : String
  params : Kwargs
  jsonrpc : String
  id : Nat

/-- Arguments of the requests.post call issued by rpc_wrapper: the url, the
payload (serialized with json.dumps by the source; kept structured here),
the content-type header, and the timeout parameter of requests.post, which
defaults to no timeout when the caller does not pass one. -/
structure HttpPost where
  url : String
  data : RpcRequest
  contentType : String
  timeout : Option Nat

/-- Outcome of requests.post(...).json(): a raised ConnectionError (the
only exception the source catches), a response body decoded to a JSON
object, or a failure of .json() to decode the body (which propagates). -/
inductive HttpResult where
  | connectionError (msg : String)
  | obj (body : List (String × JValue))
  | decodeError (msg : String)

/-- View of the controller instance read by rpc_wrapper: the host and port
properties and the pid recorded for the running daemon, as returned by
get_pid() of the Daemon base class. -/
structure Controller where
  host : String
  port : Nat
  pid : Nat

/-- URL of the remote endpoint: http://host:port/jsonrpc formatted from the
controller instance. -/
def remoteUrl (ctrl : Controller) : String :=
  "http://" ++ ctrl.host ++ ":" ++ toString ctrl.port ++ "/jsonrpc"

/-- The POST issued on the remote path of rpc_wrapper: the jsonrpc url, the
payload dict with the method name, the keyword arguments as params, version
marker 2.0 and id 0, the application/json content type, and no timeout
(requests.post is called without a timeout argument). -/
def remotePost (methodName : String) (ctrl : Controller) (kwargs : Kwargs) : HttpPost :=
  { url := remoteUrl ctrl
    data := { method := methodName, params := kwargs, jsonrpc := "2.0", id := 0 }
    contentType := "application/json"
    timeout := none }

/-- Handling of the transport outcome inside the try of rpc_wrapper: a
caught ConnectionError returns None; a body with a result key returns the
result value; otherwise the formatted error string is built from
response[error][message] (a missing error key or message key raises
KeyError, a non-dict error value raises TypeError when subscripted); a
decode failure of .json() propagates. -/
def remoteOutcome (r : HttpResult) : Except PyExn JValue :=
  match r with
  | .connectionError _ => .ok .null
  | .decodeError m => .error (.valueError m)
  | .obj response =>
    match jsonGet response "result" with
    | some v => .ok v
    | none =>
      match jsonGet response "error" with
      | some (.obj errObj) =>
        match jsonGet errObj "message" with
        | some mv => .ok (.str ("Error: " ++ pyStr mv ++ ". (see logs for details)"))
        | none => .error .keyError
      | some _ => .error .typeError
      | none => .error .keyError

/-- The wrapper the rpc decorator installs around an exposed method.  It
compares the current pid with the recorded daemon pid (call_from_server in
the source); on the server side it invokes the wrapped callable with the
positional and keyword arguments and returns its outcome unchanged; on the
client side it issues one POST built by remotePost and maps the transport
outcome through remoteOutcome.  The second component records the POST that
was issued, none when no network call was made.  The isinstance guard of
the source is enforced here by the Controller type of the first argument;
logging calls carry no data flow and are omitted. -/
def rpc_wrapper (method : PyMethod) (ctrl : Controller) (currentPid : Nat)
    (transport : HttpPost → HttpResult) (args : List JValue) (kwargs : Kwargs) :
    Except PyExn JValue × Option HttpPost :=
  if currentPid = ctrl.pid then
    (method.fn args kwargs, none)
  else
    (remoteOutcome (transport (remotePost method.name ctrl kwargs)),
     some (remotePost method.name ctrl kwargs))

/-- The module-level jsonrpc dispatcher, a Python dict from method name to
callable, modelled as a finite map and threaded as explicit state. -/
abbrev Dispatcher := String → Option PyMethod

/-- Python dict assignment d[k] = v on the finite-map representation. -/
def dictSet (d : Dispatcher) (k : String) (v : PyMethod) : Dispatcher :=
  fun n => if n = k then some v else d n

/-- The key register_method stores under: the Python expression
name if name else method.__name__, where both None and the empty string
are falsy and fall back to the __name__ of the method. -/
def regKey (method : PyMethod) : Option String → String
  | some s => if s = "" then method.name else s
  | none => method.name

/-- Translation of RemoteControllerDeamon.register_method: assigns the
method into the dispatcher under regKey. -/
def register_method (d : Dispatcher) (method : PyMethod) (name : Option String) :
    Dispatcher :=
  dictSet d (regKey method name) method

/-- One attribute of the daemon object as seen by the dir(self) loop of the
constructor: the value read by getattr, and, when the attribute carries the
registered_for_rpc marker left by the rpc decorator, the __name__ of the
original undecorated function stored in that marker. -/
structure Attr where
  value : PyMethod
  registered_for_rpc : Option String

/-- The constructor loop over dir(self): every attribute carrying the
registered_for_rpc marker is registered under the __name__ of its original
function; unmarked attributes are skipped. -/
def registerAll (attrs : List Attr) (d0 : Dispatcher) : Dispatcher :=
  attrs.foldl
    (fun d a =>
      match a.registered_for_rpc with
      | some origName => register_method d a.value (some origName)
      | none => d)
    d0

/-- State of a constructed RemoteControllerDeamon: the pidfile path and
logger are handed to the Daemon base class (the logger carries no data
flow and is dropped); __port and __host are the private fields behind the
port and host properties; dispatcher is the module-level registry after
the construction pass, threaded explicitly. -/
structure RemoteControllerDeamon where
  pidfile : String
  port : Nat
  host : String
  dispatcher : Dispatcher

/-- Translation of RemoteControllerDeamon.__init__ with port and host
passed explicitly: stores port and host and runs the registration pass
over the attributes of the object, starting from the dispatcher state d0
that the module-level registry has at construction time. -/
def RemoteControllerDeamon.init (pidfile : String) (attrs : List Attr)
    (d0 : Dispatcher) (port : Nat) (host : String) : RemoteControllerDeamon :=
  { pidfile := pidfile, port := port, host := host
    dispatcher := registerAll attrs d0 }

/-- Construction with the port and host parameters omitted, supplying the
Python default values 64042 and localhost. -/
def RemoteControllerDeamon.initDefault (pidfile : String) (attrs : List Attr)
    (d0 : Dispatcher) : RemoteControllerDeamon :=
  RemoteControllerDeamon.init pidfile attrs d0 64042 "localhost"

/-- JSON-RPC response produced by the server side: either a result with the
request id, or an error object with code, message and the request id. -/
inductive RpcResponse where
  | result (v : JValue) (id : Nat)
  | err (code : Int) (message : String) (id : Nat)

/-- Modelled from the spec: JSONRPCResponseManager.handle of the json-rpc
dependency, whose code is not part of this repository.  Per the spec it
looks the request method up in the registry; if found it invokes the
callable with params as keyword arguments and wraps the return value as a
result response, or a raised error as an internal-error response; if not
found it answers with the method-not-found error, using the standard
JSON-RPC error codes. -/
def jsonrpcHandle (d : Dispatcher) (req : RpcRequest) : RpcResponse :=
  match d req.method with
  | none => .err (-32601) "Method not found" req.id
  | some m =>
    match m.fn [] req.params with
    | .ok v => .result v req.id
    | .error _ => .err (-32603) "Internal error" req.id

/-- The WSGI response command_handler builds: the serialized JSON-RPC
response with the application/json mimetype. -/
structure WsgiResponse where
  body : RpcResponse
  mimetype : String

/-- Translation of RemoteControllerDeamon.command_handler: delegates the
request to the JSON-RPC manager over the dispatcher and wraps the response
with the application/json mimetype. -/
def command_handler (c : RemoteControllerDeamon) (req : RpcRequest) : WsgiResponse :=
  { body := jsonrpcHandle c.dispatcher req, mimetype := "application/json" }

/-- Operations the core performs on a constructed daemon object: a call of
an rpc-wrapped method (with the pid read from the pidfile and the current
pid sampled at call time), the handling of one incoming request by the
serving loop, and an explicit register_method call. -/
inductive CoreOp where
  | callWrapped (method : PyMethod) (recordedPid currentPid : Nat)
      (transport : HttpPost → HttpResult) (args : List JValue) (kwargs : Kwargs)
  | handleRequest (req : RpcRequest)
  | registerMethod (method : PyMethod) (name : Option String)

/-- Observable output of one core operation. -/
inductive StepOut where
  | call (r : Except PyExn JValue × Option HttpPost)
  | http (r : WsgiResponse)
  | unit

/-- Whether an operation belongs to the post-construction serving life of
the daemon (wrapped calls and request handling) as opposed to the explicit
registration helper that the constructor uses. -/
def CoreOp.isServing : CoreOp → Bool
  | .registerMethod _ _ => false
  | _ => true

/-- One core operation on the daemon state: wrapped calls and request
handling read the state and produce an output; register_method updates the
dispatcher.  No branch assigns to the port or host fields, mirroring the
absence of any such assignment outside the constructor. -/
def step (s : RemoteControllerDeamon) (op : CoreOp) : RemoteControllerDeamon × StepOut :=
  match op with
  | .callWrapped m rpid cpid transport args kwargs =>
    (s, .call (rpc_wrapper m { host := s.host, port := s.port, pid := rpid }
          cpid transport args kwargs))
  | .handleRequest req =>
    (s, .http (command_handler s req))
  | .registerMethod m name =>
    ({ s with dispatcher := register_method s.dispatcher m name }, .unit)

/-- Result state of a sequence of core operations. -/
def runOps (s : RemoteControllerDeamon) (ops : List CoreOp) : RemoteControllerDeamon :=
  ops.foldl (fun st op => (step st op).1) s

/-- Example exposed method from the docstring of the source: reload returns
the string reload: followed by its param1 keyword argument. -/
def reloadMethod : PyMethod :=
  { name := "reload"
    fn := fun _ kwargs =>
      match jsonGet kwargs "param1" with
      | some v => .ok (.str ("reload: " ++ pyStr v))
      | none => .error .typeError }

/-- Second example callable registered under the same name, to exercise
overwriting registrations. -/
def reloadMethodB : PyMethod :=
  { name := "reload", fn := fun _ _ => .ok (.str "second") }

/-- Example controller view: default endpoint, daemon recorded pid 42. -/
def ctrl42 : Controller :=
  { host := "localhost", port := 64042, pid := 42 }

/-- Transport oracle for an unreachable server: every POST raises a
ConnectionError. -/
def downTransport : HttpPost → HttpResult :=
  fun _ => .connectionError "Connection refused"

/-- Transport oracle for a successful call: every POST is answered with a
result body. -/
def okTransport : HttpPost → HttpResult :=
  fun _ => .obj [("result", .str "reload: p1value"), ("id", .int 0)]

/-- Transport oracle for a server-reported error: every POST is answered
with an error body carrying code and message. -/
def errTransport : HttpPost → HttpResult :=
  fun _ => .obj
    [("error", .obj [("code", .int (-32601)), ("message", .str "Method not found")]),
     ("id", .int 0)]

/-- Example attribute list of a daemon object: one attribute marked by the
rpc decorator, one ordinary attribute. -/
def attrsW : List Attr :=
  [{ value := reloadMethod, registered_for_rpc := some "reload" },
   { value := { name := "start", fn := fun _ _ => .ok .null }, registered_for_rpc := none }]

/-- Example incoming JSON-RPC request. -/
def reqW : RpcRequest :=
  { method := "reload", params := [("param1", .str "p1value")], jsonrpc := "2.0", id := 0 }

/-- Example serving operation list used below: one incoming request and one
wrapped call from a non-daemon process. -/
def opsW : List CoreOp :=
  [.handleRequest reqW,
   .callWrapped reloadMethod 42 101 downTransport [] []]

/-- Helper fact: no core operation changes the host or port fields. -/
theorem step_config (s : RemoteControllerDeamon) (op : CoreOp) :
    (step s op).1.host = s.host ∧ (step s op).1.port = s.port := by
  cases op <;> exact ⟨rfl, rfl⟩

/-- Helper fact: running a sequence of core operations changes neither the
host nor the port field. -/
theorem runOps_config (s : RemoteControllerDeamon) (ops : List CoreOp) :
    (runOps s ops).host = s.host ∧ (runOps s ops).port = s.port := by
  induction ops generalizing s with
  | nil => exact ⟨rfl, rfl⟩
  | cons op rest ih =>
    have h := step_config s op
    have h2 := ih (step s op).1
    exact ⟨h2.1.trans h.1, h2.2.trans h.2⟩

/-- Helper fact: a serving operation leaves the dispatcher untouched. -/
theorem step_serving_dispatcher (s : RemoteControllerDeamon) (op : CoreOp)
    (h : op.isServing = true) : (step s op).1.dispatcher = s.dispatcher := by
  cases op with
  | callWrapped m rpid cpid transport args kwargs => rfl
  | handleRequest req => rfl
  | registerMethod m name => simp [CoreOp.isServing] at h

/-- Helper fact: a sequence of serving operations leaves the dispatcher
untouched. -/
theorem runOps_serving_dispatcher (s : RemoteControllerDeamon) (ops : List CoreOp)
    (h : ∀ op ∈ ops, op.isServing = true) : (runOps s ops).dispatcher = s.dispatcher := by
  induction ops generalizing s with
  | nil => rfl
  | cons op rest ih =>
    have hop := step_serving_dispatcher s op (h op (List.mem_cons_self op rest))
    have htail := ih (step s op).1 (fun o ho => h o (List.mem_cons_of_mem op ho))
    exact htail.trans hop

/-- C1: if the current process id equals the recorded daemon pid at call
time, the rpc wrapper invokes the underlying callable with the same
arguments and returns its outcome unchanged (values and raised exceptions
alike), issuing no network request. -/
theorem local_call_is_direct (method : PyMethod) (ctrl : Controller)
    (currentPid : Nat) (transport : HttpPost → HttpResult)
    (args : List JValue) (kwargs : Kwargs)
    (h : currentPid = ctrl.pid) :
    rpc_wrapper method ctrl currentPid transport args kwargs
      = (method.fn args kwargs, none) := by
  simp [rpc_wrapper, h]

/-- Witness for C1 at a concrete local call. -/
theorem local_call_is_direct_witness :
    rpc_wrapper reloadMethod ctrl42 42 okTransport [] [("param1", .str "p1value")]
      = (reloadMethod.fn [] [("param1", .str "p1value")], none) :=
  local_call_is_direct reloadMethod ctrl42 42 okTransport []
    [("param1", .str "p1value")] rfl

/-- C2: a call from a process other than the daemon issues exactly one POST
to http://host:port/jsonrpc whose payload is the dict with the method name,
the keyword arguments as params, jsonrpc 2.0 and id 0, under the
application/json content type; when the response body contains a result
key, the call returns that result value unwrapped. -/
theorem remote_call_posts_jsonrpc (method : PyMethod) (ctrl : Controller)
    (currentPid : Nat) (transport : HttpPost → HttpResult)
    (args : List JValue) (kwargs : Kwargs)
    (resp : List (String × JValue)) (v : JValue)
    (hpid : currentPid ≠ ctrl.pid)
    (hresp : transport (remotePost method.name ctrl kwargs) = .obj resp)
    (hres : jsonGet resp "result" = some v) :
    rpc_wrapper method ctrl currentPid transport args kwargs
      = (.ok v, some (remotePost method.name ctrl kwargs))
    ∧ (remotePost method.name ctrl kwargs).url
        = "http://" ++ ctrl.host ++ ":" ++ toString ctrl.port ++ "/jsonrpc"
    ∧ (remotePost method.name ctrl kwargs).data
        = { method := method.name, params := kwargs, jsonrpc := "2.0", id := 0 }
    ∧ (remotePost method.name ctrl kwargs).contentType = "application/json" := by
  refine ⟨?_, rfl, rfl, rfl⟩
  simp [rpc_wrapper, hpid, hresp, remoteOutcome, hres]

/-- Witness for C2 at a concrete remote call answered with a result. -/
theorem remote_call_posts_jsonrpc_witness :
    rpc_wrapper reloadMethod ctrl42 101 okTransport [] [("param1", .str "p1value")]
      = (.ok (.str "reload: p1value"),
         some (remotePost reloadMethod.name ctrl42 [("param1", .str "p1value")]))
    ∧ (remotePost reloadMethod.name ctrl42 [("param1", .str "p1value")]).url
        = "http://" ++ ctrl42.host ++ ":" ++ toString ctrl42.port ++ "/jsonrpc"
    ∧ (remotePost reloadMethod.name ctrl42 [("param1", .str "p1value")]).data
        = { method := reloadMethod.name, params := [("param1", .str "p1value")],
            jsonrpc := "2.0", id := 0 }
    ∧ (remotePost reloadMethod.name ctrl42 [("param1", .str "p1value")]).contentType
        = "application/json" :=
  remote_call_posts_jsonrpc reloadMethod ctrl42 101 okTransport []
    [("param1", .str "p1value")]
    [("result", .str "reload: p1value"), ("id", .int 0)]
    (.str "reload: p1value") (by decide) rfl rfl

/-- C3: a call from a process other than the daemon whose POST raises a
ConnectionError returns None and raises nothing. -/
theorem remote_unreachable_returns_none (method : PyMethod) (ctrl : Controller)
    (currentPid : Nat) (transport : HttpPost → HttpResult)
    (args : List JValue) (kwargs : Kwargs) (msg : String)
    (hpid : currentPid ≠ ctrl.pid)
    (hconn : transport (remotePost method.name ctrl kwargs) = .connectionError msg) :
    rpc_wrapper method ctrl currentPid transport args kwargs
      = (.ok .null, some (remotePost method.name ctrl kwargs)) := by
  simp [rpc_wrapper, hpid, hconn, remoteOutcome]

/-- Witness for C3 at a concrete remote call against a down server. -/
theorem remote_unreachable_returns_none_witness :
    rpc_wrapper reloadMethod ctrl42 101 downTransport [] [("param1", .str "p1value")]
      = (.ok .null, some (remotePost reloadMethod.name ctrl42 [("param1", .str "p1value")])) :=
  remote_unreachable_returns_none reloadMethod ctrl42 101 downTransport []
    [("param1", .str "p1value")] "Connection refused" (by decide) rfl

/-- C5: a remote call answered by a well-formed error response (no result
key, an error object with a string message) returns the formatted string
Error: message. (see logs for details), and raises nothing. -/
theorem remote_error_formats_message (method : PyMethod) (ctrl : Controller)
    (currentPid : Nat) (transport : HttpPost → HttpResult)
    (args : List JValue) (kwargs : Kwargs)
    (resp errObj : List (String × JValue)) (msg : String)
    (hpid : currentPid ≠ ctrl.pid)
    (hresp : transport (remotePost method.name ctrl kwargs) = .obj resp)
    (hnores : jsonGet resp "result" = none)
    (herr : jsonGet resp "error" = some (.obj errObj))
    (hmsg : jsonGet errObj "message" = some (.str msg)) :
    rpc_wrapper method ctrl currentPid transport args kwargs
      = (.ok (.str ("Error: " ++ msg ++ ". (see logs for details)")),
         some (remotePost method.name ctrl kwargs)) := by
  simp [rpc_wrapper, hpid, hresp, remoteOutcome, hnores, herr, hmsg, pyStr]

/-- Witness for C5 at a concrete remote call answered with an error. -/
theorem remote_error_formats_message_witness :
    rpc_wrapper reloadMethod ctrl42 101 errTransport [] []
      = (.ok (.str ("Error: " ++ "Method not found" ++ ". (see logs for details)")),
         some (remotePost reloadMethod.name ctrl42 [])) :=
  remote_error_formats_message reloadMethod ctrl42 101 errTransport [] []
    [("error", .obj [("code", .int (-32601)), ("message", .str "Method not found")]),
     ("id", .int 0)]
    [("code", .int (-32601)), ("message", .str "Method not found")]
    "Method not found" (by decide) rfl rfl rfl rfl

/-- C4 counterexample: a concrete remote call issues its POST with the
timeout parameter unset, so no connect/response timeout is applied to it;
the daemon has no timeout configuration at all. -/
theorem no_timeout_is_applied :
    (rpc_wrapper reloadMethod ctrl42 101 downTransport [] []).2
      = some (remotePost reloadMethod.name ctrl42 [])
    ∧ (remotePost reloadMethod.name ctrl42 []).timeout = none :=
  ⟨rfl, rfl⟩

/-- C4 amended: every remote call issues its POST without a timeout
argument (so no configurable connect/response timeout exists), and a
failure raised as a ConnectionError returns the unreachable sentinel None
rather than raising. -/
theorem remote_call_has_no_timeout (method : PyMethod) (ctrl : Controller)
    (currentPid : Nat) (transport : HttpPost → HttpResult)
    (args : List JValue) (kwargs : Kwargs) (msg : String)
    (hpid : currentPid ≠ ctrl.pid)
    (hconn : transport (remotePost method.name ctrl kwargs) = .connectionError msg) :
    (rpc_wrapper method ctrl currentPid transport args kwargs).2
      = some (remotePost method.name ctrl kwargs)
    ∧ (remotePost method.name ctrl kwargs).timeout = none
    ∧ (rpc_wrapper method ctrl currentPid transport args kwargs).1 = .ok .null := by
  refine ⟨?_, rfl, ?_⟩
  · simp [rpc_wrapper, hpid]
  · simp [rpc_wrapper, hpid, hconn, remoteOutcome]

/-- Witness for the amended C4 at a concrete remote call. -/
theorem remote_call_has_no_timeout_witness :
    (rpc_wrapper reloadMethodB ctrl42 101 downTransport [] []).2
      = some (remotePost reloadMethodB.name ctrl42 [])
    ∧ (remotePost reloadMethodB.name ctrl42 []).timeout = none
    ∧ (rpc_wrapper reloadMethodB ctrl42 101 downTransport [] []).1 = .ok .null :=
  remote_call_has_no_timeout reloadMethodB ctrl42 101 downTransport [] []
    "Connection refused" (by decide) rfl

/-- C6: the routing decision of a wrapped call is exactly the equality test
of the pid current at that call against the recorded daemon pid (no network
request is issued if and only if they are equal), and the outcome of a
wrapped call is unaffected by whichever core operation ran before it, so
each invocation decides its path afresh from its own pid comparison. -/
theorem routing_is_fresh_pid_equality (method : PyMethod) (ctrl : Controller)
    (currentPid : Nat) (transport : HttpPost → HttpResult)
    (args : List JValue) (kwargs : Kwargs)
    (s : RemoteControllerDeamon) (op : CoreOp) (recordedPid : Nat) :
    ((rpc_wrapper method ctrl currentPid transport args kwargs).2 = none
        ↔ currentPid = ctrl.pid)
    ∧ (step (step s op).1
          (.callWrapped method recordedPid currentPid transport args kwargs)).2
        = (step s (.callWrapped method recordedPid currentPid transport args kwargs)).2 := by
  constructor
  · by_cases h : currentPid = ctrl.pid <;> simp [rpc_wrapper, h]
  · show StepOut.call (rpc_wrapper method
        { host := (step s op).1.host, port := (step s op).1.port, pid := recordedPid }
        currentPid transport args kwargs)
      = StepOut.call (rpc_wrapper method
        { host := s.host, port := s.port, pid := recordedPid }
        currentPid transport args kwargs)
    rw [(step_config s op).1, (step_config s op).2]

/-- C7: registering a callable f and then a callable g under the same name
n leaves the registry resolving n to g: the later registration overwrites
the earlier one. -/
theorem register_last_write_wins (d : Dispatcher) (n : String)
    (f g : PyMethod) (name1 name2 : Option String)
    (h1 : regKey f name1 = n) (h2 : regKey g name2 = n) :
    register_method (register_method d f name1) g name2 n = some g := by
  subst h2
  simp [register_method, dictSet]

/-- Witness for C7: two concrete registrations under the name reload. -/
theorem register_last_write_wins_witness :
    register_method (register_method (fun _ => none) reloadMethod (some "reload"))
        reloadMethodB (some "reload") "reload" = some reloadMethodB :=
  register_last_write_wins (fun _ => none) "reload" reloadMethod reloadMethodB
    (some "reload") (some "reload") (by simp [regKey]) (by simp [regKey])

/-- C8: construction populates the registry in one pass over the marked
attributes, and after any sequence of serving operations (wrapped calls and
request handling) the registry is still exactly what construction built:
its entries are never mutated after construction completes. -/
theorem registry_fixed_after_construction (pidfile : String) (attrs : List Attr)
    (d0 : Dispatcher) (port : Nat) (host : String) (ops : List CoreOp)
    (hserving : ∀ op ∈ ops, op.isServing = true) :
    (RemoteControllerDeamon.init pidfile attrs d0 port host).dispatcher
      = registerAll attrs d0
    ∧ (runOps (RemoteControllerDeamon.init pidfile attrs d0 port host) ops).dispatcher
      = registerAll attrs d0 :=
  ⟨rfl, runOps_serving_dispatcher _ ops hserving⟩

/-- Witness for C8 at a concrete daemon and two serving operations. -/
theorem registry_fixed_after_construction_witness :
    (RemoteControllerDeamon.init "/tmp/handler.pid" attrsW (fun _ => none)
        64042 "localhost").dispatcher
      = registerAll attrsW (fun _ => none)
    ∧ (runOps (RemoteControllerDeamon.init "/tmp/handler.pid" attrsW (fun _ => none)
          64042 "localhost") opsW).dispatcher
      = registerAll attrsW (fun _ => none) :=
  registry_fixed_after_construction "/tmp/handler.pid" attrsW (fun _ => none)
    64042 "localhost" opsW
    (by
      intro op h
      simp only [opsW, List.mem_cons, List.not_mem_nil, or_false] at h
      rcases h with rfl | rfl <;> rfl)

/-- C9: on the remote path the positional arguments beyond the instance are
dropped: the outcome is the same for any two positional argument lists, the
issued request carries only the keyword arguments as params, while the same
invocation on the local path passes the positional arguments to the
callable. -/
theorem remote_call_drops_positional_args (method : PyMethod) (ctrl : Controller)
    (currentPid : Nat) (transport : HttpPost → HttpResult)
    (args args2 : List JValue) (kwargs : Kwargs)
    (hpid : currentPid ≠ ctrl.pid) :
    rpc_wrapper method ctrl currentPid transport args kwargs
      = rpc_wrapper method ctrl currentPid transport args2 kwargs
    ∧ (rpc_wrapper method ctrl currentPid transport args kwargs).2
        = some (remotePost method.name ctrl kwargs)
    ∧ (remotePost method.name ctrl kwargs).data.params = kwargs
    ∧ rpc_wrapper method ctrl ctrl.pid transport args kwargs
        = (method.fn args kwargs, none) := by
  refine ⟨?_, ?_, rfl, ?_⟩ <;> simp [rpc_wrapper, hpid]

/-- Witness for C9 at a concrete remote call carrying a positional
argument. -/
theorem remote_call_drops_positional_args_witness :
    rpc_wrapper reloadMethod ctrl42 101 okTransport [.str "p1value"] []
      = rpc_wrapper reloadMethod ctrl42 101 okTransport [] []
    ∧ (rpc_wrapper reloadMethod ctrl42 101 okTransport [.str "p1value"] []).2
        = some (remotePost reloadMethod.name ctrl42 [])
    ∧ (remotePost reloadMethod.name ctrl42 []).data.params = []
    ∧ rpc_wrapper reloadMethod ctrl42 ctrl42.pid okTransport [.str "p1value"] []
        = (reloadMethod.fn [.str "p1value"] [], none) :=
  remote_call_drops_positional_args reloadMethod ctrl42 101 okTransport
    [.str "p1value"] [] [] (by decide)

/-- C10: the port and host of a daemon are the constructor-supplied values,
default to 64042 and localhost when omitted, and are left unchanged by any
sequence of core operations (wrapped calls, registration, request
handling). -/
theorem endpoint_config_fixed (pidfile : String) (attrs : List Attr)
    (d0 : Dispatcher) (port : Nat) (host : String) (ops : List CoreOp) :
    (RemoteControllerDeamon.init pidfile attrs d0 port host).port = port
    ∧ (RemoteControllerDeamon.init pidfile attrs d0 port host).host = host
    ∧ (RemoteControllerDeamon.initDefault pidfile attrs d0).port = 64042
    ∧ (RemoteControllerDeamon.initDefault pidfile attrs d0).host = "localhost"
    ∧ (runOps (RemoteControllerDeamon.init pidfile attrs d0 port host) ops).port = port
    ∧ (runOps (RemoteControllerDeamon.init pidfile attrs d0 port host) ops).host = host :=
  ⟨rfl, rfl, rfl, rfl,
   (runOps_config (RemoteControllerDeamon.init pidfile attrs d0 port host) ops).2,
   (runOps_config (RemoteControllerDeamon.init pidfile attrs d0 port host) ops).1⟩
